import Mathlib

/-!
Verification development for the `whoshome` repository: a shallow embedding
of `src/unifi_dream_router.rs` (the authenticated UniFi Dream Router client)
and `changes/src/lib.rs` (the list-diff library), with theorems settling the
specification claims.

Modelling conventions:
* HTTP is modelled by a scripted environment: `NetState.script` is the list
  of responses the network returns, in order; each physical send consumes
  the next response and appends the request to `NetState.sent` (the trace).
  An exhausted script models a transport failure.
* `reqwest`'s single `Cell<Option<String>>` of CSRF state is the `csrf`
  field of `NetState`; functions are written in explicit state-passing style
  and always return the final `NetState`, paired with an `Except` result
  (side effects persist on error, as in the Rust code).
* JSON is a small inductive value type; serde derive semantics for the
  concrete structs are translated by hand (missing `Option` field decodes to
  `none`, required field must be present and a string, unknown fields are
  ignored).
* Header values are `String`s, so `HeaderValue::to_str` (which fails only on
  non-ASCII bytes) always succeeds in the model.
-/

/-- HTTP method, only the two used by the client. -/
inductive Method
  | get
  | post
deriving DecidableEq, Repr

/-- A minimal JSON value type, sufficient for the bodies this client builds
and decodes. -/
inductive Json
  | null
  | str (s : String)
  | arr (elems : List Json)
  | obj (fields : List (String × Json))

/-- A not-yet-sent HTTP request (the information a `RequestBuilder` holds
that the claims observe). -/
structure Request where
  method : Method
  url : String
  headers : List (String × String)
  body : Option Json

/-- An HTTP response: status code, headers, JSON body. -/
structure Response where
  status : Nat
  headers : List (String × String)
  body : Json

/-- Embeds `get_csrf_token` (src/unifi_dream_router.rs:193-202): look up the
`x-csrf-token` header; absent header gives `none`.  The Rust `to_str`
failure branch is unreachable for `String`-valued headers. -/
def get_csrf_token (headers : List (String × String)) : Option String :=
  match headers.lookup "x-csrf-token" with
  | none => none
  | some v => some v

/-- Embeds `reqwest::Response::error_for_status`: errors exactly on client
(400-499) and server (500-599) error statuses. -/
def isErrorStatus (s : Nat) : Bool :=
  (400 ≤ s && s ≤ 499) || (500 ≤ s && s ≤ 599)

/-- One machine entry of a parsed `.netrc` file (netrc_rs `Machine`). -/
structure Machine where
  name : Option String
  login : Option String
  password : Option String

/-- Embeds `get_password` (src/unifi_dream_router.rs:229-241) from the
parsed `.netrc` onward (locating and reading the file is ambient I/O):
find the machine entry named `machine` and return its password, failing
when the machine is absent or has no password. -/
def get_password (machines : List Machine) (machine : String) : Except String String :=
  match machines.find? (fun m => m.name == some machine) with
  | none => .error ("Could not find " ++ machine ++ " in .netrc")
  | some m =>
    match m.password with
    | none => .error ("No password for " ++ machine ++ " in .netrc")
    | some p => .ok p

/-- Embeds the `UnifiClient` deserialization target
(src/unifi_dream_router.rs:204-208): optional `name`, required `mac`. -/
structure UnifiClient where
  name : Option String
  mac : String

/-- Embeds the method `UnifiClient::name` (src/unifi_dream_router.rs:210-216)
(renamed: the Lean field projection already takes the name `name`): the
router-reported name, or the placeholder when absent. -/
def UnifiClient.displayName (c : UnifiClient) : String :=
  match c.name with
  | some n => n
  | none => "<unnamed client>"

/-- Embeds the domain `Client` struct (src/router.rs:12-16). -/
structure Client where
  name : String
  mac : String

/-- The per-record map in `known_clients`/`online_clients`
(src/unifi_dream_router.rs:43-49): `Client { name: c.name(), mac: c.mac }`. -/
def toClient (c : UnifiClient) : Client :=
  { name := c.displayName, mac := c.mac }

/-- serde decode of one `UnifiClient` record: `mac` must be present and a
string; `name` is `Option<String>` so a missing or null field decodes to
`none`, a string to `some`, anything else fails. -/
def decodeUnifiClient (j : Json) : Option UnifiClient :=
  match j with
  | .obj fields =>
    match fields.lookup "mac" with
    | some (.str mac) =>
      match fields.lookup "name" with
      | none => some { name := none, mac := mac }
      | some .null => some { name := none, mac := mac }
      | some (.str n) => some { name := some n, mac := mac }
      | some _ => none
    | _ => none
  | _ => none

/-- Element-wise decoding of a JSON array body, failing if any element
fails (serde's behaviour for `Vec<T>`). -/
def decodeList (elems : List Json) : Option (List UnifiClient) :=
  match elems with
  | [] => some []
  | e :: rest =>
    match decodeUnifiClient e with
    | none => none
    | some c =>
      match decodeList rest with
      | none => none
      | some cs => some (c :: cs)

/-- serde decode of `RouterResponse<UnifiClient>`
(src/unifi_dream_router.rs:224-227): an object whose `data` field is an
array of records. -/
def decodeRouterResponse (j : Json) : Option (List UnifiClient) :=
  match j with
  | .obj fields =>
    match fields.lookup "data" with
    | some (.arr elems) => decodeList elems
    | _ => none
  | _ => none

/-- serde encode of the `Login` body (src/unifi_dream_router.rs:218-222). -/
def encodeLogin (username password : String) : Json :=
  .obj [("username", .str username), ("password", .str password)]

/-- Embeds `BlockCommand` (src/unifi_dream_router.rs:243-247). -/
structure BlockCommand where
  cmd : String
  mac : String

/-- Embeds `BlockCommand::new` (src/unifi_dream_router.rs:249-256). -/
def BlockCommand.new (mac : String) : BlockCommand :=
  { cmd := "block-sta", mac := mac }

/-- Embeds `UnblockCommand` (src/unifi_dream_router.rs:258-262). -/
structure UnblockCommand where
  cmd : String
  mac : String

/-- Embeds `UnblockCommand::new` (src/unifi_dream_router.rs:264-270). -/
def UnblockCommand.new (mac : String) : UnblockCommand :=
  { cmd := "unblock-sta", mac := mac }

/-- serde encode of a `BlockCommand` body (field order as declared). -/
def encodeBlockCommand (c : BlockCommand) : Json :=
  .obj [("cmd", .str c.cmd), ("mac", .str c.mac)]

/-- serde encode of an `UnblockCommand` body (field order as declared). -/
def encodeUnblockCommand (c : UnblockCommand) : Json :=
  .obj [("cmd", .str c.cmd), ("mac", .str c.mac)]

/-- Embeds the `UnifiDreamRouter` struct (src/unifi_dream_router.rs:16-24).
The `http_client` (cookie jar, TLS config) is part of the ambient transport;
the `Cell<Option<String>>` CSRF token lives in `NetState`. -/
structure UnifiDreamRouter where
  login_url : String
  known_devices_url : String
  connected_devices_url : String
  site_url : String
  hostname : String

/-- Embeds the URL construction of `UnifiDreamRouter::new`
(src/unifi_dream_router.rs:101-128), with the `early` builder's
`scheme://host/seg/.../seg` output written out. -/
def UnifiDreamRouter.new (hostname : String) : UnifiDreamRouter :=
  let base := "https://" ++ hostname
  let site := base ++ "/proxy/network/api/s/default"
  { login_url := base ++ "/api/auth/login"
    known_devices_url := site ++ "/rest/user"
    connected_devices_url := site ++ "/stat/sta"
    site_url := site
    hostname := hostname }

/-- The mutable world threaded through every operation: the remaining
scripted responses, the stored CSRF token (the Rust `Cell`), and the trace
of physically sent requests. -/
structure NetState where
  script : List Response
  csrf : Option String
  sent : List Request

/-- One physical HTTP exchange: consume the next scripted response and
record the request; an exhausted script is a transport failure. -/
def httpSend (req : Request) (s : NetState) : Option (Response × NetState) :=
  match s.script with
  | [] => none
  | resp :: rest => some (resp, { script := rest, csrf := s.csrf, sent := s.sent ++ [req] })

/-- Embeds the `changes` `Change<T>` type (changes/src/lib.rs:1-5). -/
inductive Change (T : Type)
  | Added (x : T)
  | Removed (x : T)
deriving DecidableEq, Repr

/-- Embeds `changes` (changes/src/lib.rs:9-27): `filter_map` over `after`
keeping elements absent from `before` as `Added`, chained with `filter_map`
over `before` keeping elements absent from `after` as `Removed`. -/
def changes {T : Type} [DecidableEq T] (before after : List T) : List (Change T) :=
  (after.filterMap fun x => if x ∈ before then none else some (Change.Added x)) ++
    (before.filterMap fun x => if x ∈ after then none else some (Change.Removed x))

/-- Append a header to a request (`RequestBuilder::header`). -/
def Request.addHeader (req : Request) (k v : String) : Request :=
  { req with headers := req.headers ++ [(k, v)] }

/-- Embeds `UnifiDreamRouter::add_csrf_header`
(src/unifi_dream_router.rs:160-170), including the `Cell::take` /
`Cell::set` dance: take the token out of the cell (leaving `none`); when a
token was present, add it as the `x-csrf-token` header and put it back.
Returns the cell's content after the call together with the resulting
request. -/
def add_csrf_header (csrf : Option String) (req : Request) :
    Option String × Request :=
  let taken := csrf
  match taken with
  | some t => (some t, req.addHeader "x-csrf-token" t)
  | none => (none, req)

/-- Login-flow failures (the `anyhow` contexts of
src/unifi_dream_router.rs:172-190 and `get_password`). -/
inductive LoginError
  | credentials (msg : String)
  | transport
  | status (code : Nat)
deriving DecidableEq, Repr

/-- Failures of the guarded send and the public operations. -/
inductive RouterError
  | transport
  | status (code : Nat)
  | login (e : LoginError)
  | decode
deriving DecidableEq, Repr

/-- Embeds `UnifiDreamRouter::login` (src/unifi_dream_router.rs:172-190):
look the password up in `.netrc` (failing before any request when absent),
POST `{ username: "peter@peca.dk", password }` to the login endpoint, fail
on a transport error or error status, and on success overwrite the stored
CSRF token with the response's `x-csrf-token` header (or `none`). -/
def UnifiDreamRouter.login (r : UnifiDreamRouter) (netrc : List Machine)
    (s : NetState) : NetState × Except LoginError Unit :=
  match get_password netrc r.hostname with
  | .error msg => (s, .error (.credentials msg))
  | .ok password =>
    let req : Request :=
      { method := .post, url := r.login_url, headers := [],
        body := some (encodeLogin "peter@peca.dk" password) }
    match httpSend req s with
    | none => (s, .error .transport)
    | some (resp, s1) =>
      if isErrorStatus resp.status then (s1, .error (.status resp.status))
      else ({ s1 with csrf := get_csrf_token resp.headers }, .ok ())

/-- Embeds the guarded send `UnifiDreamRouter::send`
(src/unifi_dream_router.rs:130-158): attach the CSRF header, clone the
request (`try_clone` always succeeds for the bodies this client builds, so
the clone-failure branch is unreachable in the model), send; on a 401
perform the login flow and send the clone once, treating any error status
on the retry as final; on any other error status fail immediately; on the
surviving response overwrite the stored CSRF token with the response's
`x-csrf-token` header (or `none` when absent) and return the response. -/
def UnifiDreamRouter.send (r : UnifiDreamRouter) (netrc : List Machine)
    (req0 : Request) (s : NetState) : NetState × Except RouterError Response :=
  let p := add_csrf_header s.csrf req0
  let req := p.2
  let backup := req
  let s0 : NetState := { s with csrf := p.1 }
  match httpSend req s0 with
  | none => (s0, .error .transport)
  | some (resp, s1) =>
    if isErrorStatus resp.status then
      if resp.status = 401 then
        match r.login netrc s1 with
        | (s2, .error e) => (s2, .error (.login e))
        | (s2, .ok ()) =>
          match httpSend backup s2 with
          | none => (s2, .error .transport)
          | some (resp2, s3) =>
            if isErrorStatus resp2.status then (s3, .error (.status resp2.status))
            else ({ s3 with csrf := get_csrf_token resp2.headers }, .ok resp2)
      else (s1, .error (.status resp.status))
    else ({ s1 with csrf := get_csrf_token resp.headers }, .ok resp)

/-- Embeds `known_clients` (src/unifi_dream_router.rs:27-50): send a GET to
the known-devices URL through the guarded send, then issue a SECOND direct
GET to the same URL outside the guarded send, decode that second response
as `RouterResponse<UnifiClient>` and map each record to a `Client`. -/
def UnifiDreamRouter.known_clients (r : UnifiDreamRouter) (netrc : List Machine)
    (s : NetState) : NetState × Except RouterError (List Client) :=
  let req : Request :=
    { method := .get, url := r.known_devices_url, headers := [], body := none }
  match r.send netrc req s with
  | (s1, .error e) => (s1, .error e)
  | (s1, .ok _) =>
    let req2 : Request :=
      { method := .get, url := r.known_devices_url, headers := [], body := none }
    match httpSend req2 s1 with
    | none => (s1, .error .transport)
    | some (resp, s2) =>
      if isErrorStatus resp.status then (s2, .error (.status resp.status))
      else
        match decodeRouterResponse resp.body with
        | none => (s2, .error .decode)
        | some devices => (s2, .ok (devices.map toClient))

/-- Embeds `online_clients` (src/unifi_dream_router.rs:52-75): identical to
`known_clients` but against the connected-devices URL. -/
def UnifiDreamRouter.online_clients (r : UnifiDreamRouter) (netrc : List Machine)
    (s : NetState) : NetState × Except RouterError (List Client) :=
  let req : Request :=
    { method := .get, url := r.connected_devices_url, headers := [], body := none }
  match r.send netrc req s with
  | (s1, .error e) => (s1, .error e)
  | (s1, .ok _) =>
    let req2 : Request :=
      { method := .get, url := r.connected_devices_url, headers := [], body := none }
    match httpSend req2 s1 with
    | none => (s1, .error .transport)
    | some (resp, s2) =>
      if isErrorStatus resp.status then (s2, .error (.status resp.status))
      else
        match decodeRouterResponse resp.body with
        | none => (s2, .error .decode)
        | some devices => (s2, .ok (devices.map toClient))

/-- Embeds `block_client` (src/unifi_dream_router.rs:77-86): POST a
`BlockCommand` JSON body to `<site>/cmd/stamgr` through the guarded send. -/
def UnifiDreamRouter.block_client (r : UnifiDreamRouter) (netrc : List Machine)
    (client : Client) (s : NetState) : NetState × Except RouterError Unit :=
  let cmd_url := r.site_url ++ "/cmd/stamgr"
  let req : Request :=
    { method := .post, url := cmd_url, headers := [],
      body := some (encodeBlockCommand (BlockCommand.new client.mac)) }
  match r.send netrc req s with
  | (s1, .error e) => (s1, .error e)
  | (s1, .ok _) => (s1, .ok ())

/-- Embeds `unblock_client` (src/unifi_dream_router.rs:88-97): POST an
`UnblockCommand` JSON body to `<site>/cmd/stamgr` through the guarded
send. -/
def UnifiDreamRouter.unblock_client (r : UnifiDreamRouter) (netrc : List Machine)
    (client : Client) (s : NetState) : NetState × Except RouterError Unit :=
  let cmd_url := r.site_url ++ "/cmd/stamgr"
  let req : Request :=
    { method := .post, url := cmd_url, headers := [],
      body := some (encodeUnblockCommand (UnblockCommand.new client.mac)) }
  match r.send netrc req s with
  | (s1, .error e) => (s1, .error e)
  | (s1, .ok _) => (s1, .ok ())

theorem add_csrf_header_fst (csrf : Option String) (req : Request) :
    (add_csrf_header csrf req).1 = csrf := by
  cases csrf <;> rfl

theorem add_csrf_header_method (csrf : Option String) (req : Request) :
    ((add_csrf_header csrf req).2).method = req.method := by
  cases csrf <;> rfl

theorem add_csrf_header_url (csrf : Option String) (req : Request) :
    ((add_csrf_header csrf req).2).url = req.url := by
  cases csrf <;> rfl

theorem add_csrf_header_body (csrf : Option String) (req : Request) :
    ((add_csrf_header csrf req).2).body = req.body := by
  cases csrf <;> rfl

theorem login_sent_extends (r : UnifiDreamRouter) (netrc : List Machine)
    (s : NetState) : ∃ extra, ((r.login netrc s).1).sent = s.sent ++ extra := by
  unfold UnifiDreamRouter.login
  cases hgp : get_password netrc r.hostname with
  | error msg => exact ⟨[], by simp⟩
  | ok pw =>
    cases hsc : s.script with
    | nil => simp [httpSend, hsc]
    | cons r1 rest =>
      by_cases he : isErrorStatus r1.status <;> simp [httpSend, hsc, he]

theorem send_sent_prefix (r : UnifiDreamRouter) (netrc : List Machine)
    (req : Request) (csrf : Option String) (sent : List Request)
    (r1 : Response) (rest : List Response) :
    ∃ extra, ((r.send netrc req ⟨r1 :: rest, csrf, sent⟩).1).sent
      = sent ++ (add_csrf_header csrf req).2 :: extra := by
  simp only [UnifiDreamRouter.send, httpSend]
  by_cases he : isErrorStatus r1.status
  · by_cases h401 : r1.status = 401
    · have he401 : isErrorStatus 401 = true := by decide
      simp only [h401, he401, if_true]
      rcases hl : r.login netrc
          ⟨rest, (add_csrf_header csrf req).1, sent ++ [(add_csrf_header csrf req).2]⟩ with ⟨s2, res⟩
      obtain ⟨extra2, hex⟩ := login_sent_extends r netrc
        ⟨rest, (add_csrf_header csrf req).1, sent ++ [(add_csrf_header csrf req).2]⟩
      rw [hl] at hex
      replace hex : s2.sent = (sent ++ [(add_csrf_header csrf req).2]) ++ extra2 := by
        simpa using hex
      cases res with
      | error e => simp only [hl]; exact ⟨extra2, by simpa using hex⟩
      | ok u =>
        cases u
        cases hsc2 : s2.script with
        | nil => simp only [hl, httpSend, hsc2]; exact ⟨extra2, by simpa using hex⟩
        | cons r2 rest2 =>
          by_cases he2 : isErrorStatus r2.status
          · simp only [hl, httpSend, hsc2, he2, if_true]
            exact ⟨extra2 ++ [(add_csrf_header csrf req).2], by simp [hex]⟩
          · simp only [hl, httpSend, hsc2, he2, if_false]
            exact ⟨extra2 ++ [(add_csrf_header csrf req).2], by simp [hex]⟩
    · simp only [he, if_true]
      rw [if_neg h401]
      exact ⟨[], by simp⟩
  · simp only [he, if_false]
    exact ⟨[], by simp⟩

theorem filterMap_if_eq_filter_map {T U : Type} (p : T → Prop) [DecidablePred p]
    (f : T → U) (l : List T) :
    (l.filterMap fun x => if p x then none else some (f x))
      = (l.filter fun x => decide (¬ p x)).map f := by
  induction l with
  | nil => rfl
  | cons a l ih =>
    by_cases h : p a <;> simp [List.filterMap_cons, List.filter_cons, h, ih]

/-- C10: attaching the CSRF header to an outgoing request leaves the stored
token exactly as it was — the `take`/`set` round trip of
`add_csrf_header` restores the cell's content for both the `some` and the
`none` case, so building a request never clears or replaces the token. -/
theorem C10_add_csrf_header_preserves_token (csrf : Option String) (req : Request) :
    (add_csrf_header csrf req).1 = csrf := by
  cases csrf <;> rfl

/-- C9: `changes before after` is exactly the `Added` markers for the
elements of `after` that are not contained in `before`, in `after`'s order,
followed by the `Removed` markers for the elements of `before` that are not
contained in `after`, in `before`'s order; in particular `changes l l` is
empty for every list `l`. -/
theorem C9_changes_spec {T : Type} [DecidableEq T] :
    (∀ before after : List T,
      changes before after
        = ((after.filter fun x => decide (x ∉ before)).map Change.Added)
            ++ ((before.filter fun x => decide (x ∉ after)).map Change.Removed)) ∧
    (∀ l : List T, changes l l = []) := by
  have key : ∀ before after : List T,
      changes before after
        = ((after.filter fun x => decide (x ∉ before)).map Change.Added)
            ++ ((before.filter fun x => decide (x ∉ after)).map Change.Removed) := by
    intro before after
    unfold changes
    rw [filterMap_if_eq_filter_map (fun x => x ∈ before) Change.Added after,
      filterMap_if_eq_filter_map (fun x => x ∈ after) Change.Removed before]
  refine ⟨key, fun l => ?_⟩
  rw [key]
  have hfilter : (l.filter fun x => decide (x ∉ l)) = [] := by
    rw [List.filter_eq_nil_iff]
    intro a ha
    simp [ha]
  simp [hfilter]

/-- C6: decoding the listing response with one record that has a `mac` but
no `name` field yields exactly one `Client` whose name is the placeholder
`"<unnamed client>"` and whose mac is unchanged; in general every record
lacking a name maps to a `Client` with the placeholder name and the
record's mac. -/
theorem C6_placeholder_name :
    ((decodeRouterResponse
        (.obj [("data", .arr [.obj [("mac", .str "aa:bb:cc:dd:ee:ff")]])])).map
      (List.map toClient))
      = some [{ name := "<unnamed client>", mac := "aa:bb:cc:dd:ee:ff" }] ∧
    ∀ m : String, toClient { name := none, mac := m }
      = { name := "<unnamed client>", mac := m } :=
  ⟨rfl, fun _ => rfl⟩

/-- C5: on any state able to carry at least one exchange, `block_client c`
physically sends as its first request a POST to `<site>/cmd/stamgr` whose
JSON body is `{ cmd: "block-sta", mac: c.mac }`, and `unblock_client c`
sends a POST to the same endpoint with body
`{ cmd: "unblock-sta", mac: c.mac }`. -/
theorem C5_block_unblock_command (r : UnifiDreamRouter) (netrc : List Machine)
    (c : Client) (csrf : Option String) (sent : List Request)
    (r1 : Response) (rest : List Response) :
    (∃ q extra, ((r.block_client netrc c ⟨r1 :: rest, csrf, sent⟩).1).sent
        = sent ++ q :: extra ∧
      q.method = Method.post ∧
      q.url = r.site_url ++ "/cmd/stamgr" ∧
      q.body = some (.obj [("cmd", .str "block-sta"), ("mac", .str c.mac)])) ∧
    (∃ q extra, ((r.unblock_client netrc c ⟨r1 :: rest, csrf, sent⟩).1).sent
        = sent ++ q :: extra ∧
      q.method = Method.post ∧
      q.url = r.site_url ++ "/cmd/stamgr" ∧
      q.body = some (.obj [("cmd", .str "unblock-sta"), ("mac", .str c.mac)])) := by
  constructor
  · obtain ⟨extra, hex⟩ := send_sent_prefix r netrc
      ⟨Method.post, r.site_url ++ "/cmd/stamgr", [],
        some (encodeBlockCommand (BlockCommand.new c.mac))⟩ csrf sent r1 rest
    refine ⟨(add_csrf_header csrf
      ⟨Method.post, r.site_url ++ "/cmd/stamgr", [],
        some (encodeBlockCommand (BlockCommand.new c.mac))⟩).2, extra, ?_, ?_, ?_, ?_⟩
    · unfold UnifiDreamRouter.block_client
      rcases hs : r.send netrc
          ⟨Method.post, r.site_url ++ "/cmd/stamgr", [],
            some (encodeBlockCommand (BlockCommand.new c.mac))⟩
          ⟨r1 :: rest, csrf, sent⟩ with ⟨s1, res⟩
      rw [hs] at hex
      dsimp only
      rw [hs]
      cases res <;> simpa using hex
    · exact add_csrf_header_method ..
    · exact add_csrf_header_url ..
    · rw [add_csrf_header_body]
      rfl
  · obtain ⟨extra, hex⟩ := send_sent_prefix r netrc
      ⟨Method.post, r.site_url ++ "/cmd/stamgr", [],
        some (encodeUnblockCommand (UnblockCommand.new c.mac))⟩ csrf sent r1 rest
    refine ⟨(add_csrf_header csrf
      ⟨Method.post, r.site_url ++ "/cmd/stamgr", [],
        some (encodeUnblockCommand (UnblockCommand.new c.mac))⟩).2, extra, ?_, ?_, ?_, ?_⟩
    · unfold UnifiDreamRouter.unblock_client
      rcases hs : r.send netrc
          ⟨Method.post, r.site_url ++ "/cmd/stamgr", [],
            some (encodeUnblockCommand (UnblockCommand.new c.mac))⟩
          ⟨r1 :: rest, csrf, sent⟩ with ⟨s1, res⟩
      rw [hs] at hex
      dsimp only
      rw [hs]
      cases res <;> simpa using hex
    · exact add_csrf_header_method ..
    · exact add_csrf_header_url ..
    · rw [add_csrf_header_body]
      rfl

theorem send_ok_of_success (r : UnifiDreamRouter) (netrc : List Machine)
    (req : Request) (csrf : Option String) (sent : List Request)
    (r1 : Response) (rest : List Response)
    (h : isErrorStatus r1.status = false) :
    r.send netrc req ⟨r1 :: rest, csrf, sent⟩
      = (⟨rest, get_csrf_token r1.headers,
          sent ++ [(add_csrf_header csrf req).2]⟩, .ok r1) := by
  simp [UnifiDreamRouter.send, httpSend, h]

/-- C4: when the first send of a guarded-send call returns a non-success
status other than 401, the call fails immediately with that status: the
final state shows exactly one request was sent (no login POST, no retry),
the rest of the scripted responses are untouched, and the stored CSRF token
is unchanged. -/
theorem C4_non401_fails_immediately (r : UnifiDreamRouter) (netrc : List Machine)
    (req : Request) (csrf : Option String) (sent : List Request)
    (r1 : Response) (rest : List Response)
    (herr : isErrorStatus r1.status = true) (h401 : r1.status ≠ 401) :
    r.send netrc req ⟨r1 :: rest, csrf, sent⟩
      = (⟨rest, csrf, sent ++ [(add_csrf_header csrf req).2]⟩,
          .error (.status r1.status)) := by
  simp only [UnifiDreamRouter.send, httpSend, herr, if_true]
  rw [if_neg h401]
  simp [add_csrf_header_fst]

/-- Witness for C4 at a concrete 403 response. -/
theorem C4_witness :
    (UnifiDreamRouter.new "h").send [] ⟨Method.get, "u", [], none⟩
        ⟨[⟨403, [], Json.null⟩], some "tok", []⟩
      = (⟨[], some "tok",
          [(add_csrf_header (some "tok") ⟨Method.get, "u", [], none⟩).2]⟩,
          .error (.status 403)) :=
  C4_non401_fails_immediately (UnifiDreamRouter.new "h") [] ⟨Method.get, "u", [], none⟩
    (some "tok") [] ⟨403, [], Json.null⟩ [] (by decide) (by decide)

/-- C1 as stated is false on the code: a success response WITHOUT an
`x-csrf-token` header does not leave the stored token unchanged — `send`
overwrites the cell with `get_csrf_token`'s result unconditionally, so the
previously stored token `some "old"` is cleared to `none`. -/
theorem C1_counterexample :
    (((UnifiDreamRouter.new "h").send [] ⟨Method.get, "u", [], none⟩
        ⟨[⟨200, [], Json.null⟩], some "old", []⟩).2
      = .ok ⟨200, [], Json.null⟩) ∧
    (((UnifiDreamRouter.new "h").send [] ⟨Method.get, "u", [], none⟩
        ⟨[⟨200, [], Json.null⟩], some "old", []⟩).1.csrf = none) ∧
    some "old" ≠ (none : Option String) :=
  ⟨rfl, rfl, by decide⟩

/-- C1 (amended): on every response returned by a guarded-send call, the
stored CSRF token is overwritten with the result of extracting the
response's `x-csrf-token` header — its value when the header is present,
and `none` (the token is cleared, not left unchanged) when it is absent. -/
theorem C1_amended_csrf_overwritten (r : UnifiDreamRouter) (netrc : List Machine)
    (req : Request) (s s' : NetState) (resp : Response)
    (h : r.send netrc req s = (s', .ok resp)) :
    s'.csrf = get_csrf_token resp.headers := by
  obtain ⟨script, csrf, sent⟩ := s
  cases script with
  | nil => simp [UnifiDreamRouter.send, httpSend] at h
  | cons r1 rest =>
    simp only [UnifiDreamRouter.send, httpSend] at h
    by_cases he : isErrorStatus r1.status
    · rw [if_pos he] at h
      by_cases h401 : r1.status = 401
      · rw [if_pos h401] at h
        rcases hl : r.login netrc
            ⟨rest, (add_csrf_header csrf req).1,
              sent ++ [(add_csrf_header csrf req).2]⟩ with ⟨s2, res⟩
        rw [hl] at h
        cases res with
        | error e => simp at h
        | ok u =>
          cases u
          cases hsc2 : s2.script with
          | nil => simp [httpSend, hsc2] at h
          | cons r2 rest2 =>
            by_cases he2 : isErrorStatus r2.status
            · simp [httpSend, hsc2, he2] at h
            · simp only [httpSend, hsc2] at h
              rw [if_neg (by simp [he2])] at h
              obtain ⟨h1, h2⟩ := Prod.mk.injEq .. |>.mp h
              obtain rfl : r2 = resp := Except.ok.inj h2
              rw [← h1]
      · rw [if_neg h401] at h
        simp at h
    · rw [if_neg he] at h
      obtain ⟨h1, h2⟩ := Prod.mk.injEq .. |>.mp h
      obtain rfl : r1 = resp := Except.ok.inj h2
      rw [← h1]

/-- Witness for the amended C1 at a response carrying the header. -/
theorem C1_amended_witness :
    (((UnifiDreamRouter.new "h").send [] ⟨Method.get, "u", [], none⟩
        ⟨[⟨200, [("x-csrf-token", "tok")], Json.null⟩], none, []⟩).1).csrf
      = get_csrf_token [("x-csrf-token", "tok")] :=
  C1_amended_csrf_overwritten (UnifiDreamRouter.new "h") [] ⟨Method.get, "u", [], none⟩
    ⟨[⟨200, [("x-csrf-token", "tok")], Json.null⟩], none, []⟩
    (((UnifiDreamRouter.new "h").send [] ⟨Method.get, "u", [], none⟩
        ⟨[⟨200, [("x-csrf-token", "tok")], Json.null⟩], none, []⟩).1)
    ⟨200, [("x-csrf-token", "tok")], Json.null⟩ rfl

/-- C2: when the first send returns 401 and the login flow succeeds, the
guarded send performs exactly three physical exchanges — the original
request, one login POST, and the cloned backup request sent exactly once;
the remaining script is untouched (no third attempt, no second login), an
error status on the retried request is returned as the final failure, and a
success status yields that retried response. -/
theorem C2_single_retry_after_401 (r : UnifiDreamRouter) (netrc : List Machine)
    (req : Request) (csrf : Option String) (sent : List Request) (pw : String)
    (r1 rlogin r2 : Response) (rest : List Response)
    (h401 : r1.status = 401)
    (hpw : get_password netrc r.hostname = .ok pw)
    (hlogin : isErrorStatus rlogin.status = false) :
    ((r.send netrc req ⟨r1 :: rlogin :: r2 :: rest, csrf, sent⟩).1.sent
      = sent ++ [(add_csrf_header csrf req).2,
          ⟨Method.post, r.login_url, [], some (encodeLogin "peter@peca.dk" pw)⟩,
          (add_csrf_header csrf req).2]) ∧
    ((r.send netrc req ⟨r1 :: rlogin :: r2 :: rest, csrf, sent⟩).1.script = rest) ∧
    (isErrorStatus r2.status = true →
      (r.send netrc req ⟨r1 :: rlogin :: r2 :: rest, csrf, sent⟩).2
        = .error (.status r2.status)) ∧
    (isErrorStatus r2.status = false →
      (r.send netrc req ⟨r1 :: rlogin :: r2 :: rest, csrf, sent⟩).2 = .ok r2) := by
  have he401 : isErrorStatus 401 = true := by decide
  by_cases he2 : isErrorStatus r2.status
  · simp [UnifiDreamRouter.send, UnifiDreamRouter.login, httpSend, h401, he401,
      hpw, hlogin, he2]
  · simp [UnifiDreamRouter.send, UnifiDreamRouter.login, httpSend, h401, he401,
      hpw, hlogin, he2]

/-- Witness for C2: a 401 followed by a successful login and a successful
retry consumes the whole three-response script. -/
theorem C2_witness :
    ((UnifiDreamRouter.new "h").send [⟨some "h", none, some "pw"⟩]
        ⟨Method.get, "u", [], none⟩
        ⟨[⟨401, [], Json.null⟩, ⟨200, [], Json.null⟩, ⟨200, [], Json.null⟩],
          none, []⟩).1.script = [] :=
  (C2_single_retry_after_401 (UnifiDreamRouter.new "h") [⟨some "h", none, some "pw"⟩]
      ⟨Method.get, "u", [], none⟩ none [] "pw"
      ⟨401, [], Json.null⟩ ⟨200, [], Json.null⟩ ⟨200, [], Json.null⟩ []
      rfl rfl (by decide)).2.1

/-- C3 as stated is false on the code: with an all-success script (no 401),
one guarded send of the listing request performs exactly one physical
exchange, yet `known_clients` performs two — it issues a second direct GET
outside the guarded-send protocol (and still succeeds). -/
theorem C3_counterexample :
    ((((UnifiDreamRouter.new "h").send []
        ⟨Method.get, (UnifiDreamRouter.new "h").known_devices_url, [], none⟩
        ⟨[⟨200, [], Json.null⟩, ⟨200, [], Json.obj [("data", Json.arr [])]⟩],
          none, []⟩).1).sent.length = 1) ∧
    ((((UnifiDreamRouter.new "h").known_clients []
        ⟨[⟨200, [], Json.null⟩, ⟨200, [], Json.obj [("data", Json.arr [])]⟩],
          none, []⟩).1).sent.length = 2) ∧
    (((UnifiDreamRouter.new "h").known_clients []
        ⟨[⟨200, [], Json.null⟩, ⟨200, [], Json.obj [("data", Json.arr [])]⟩],
          none, []⟩).2 = .ok []) :=
  ⟨rfl, rfl, rfl⟩

/-- C3 (amended): `block_client` and `unblock_client` each build exactly one
POST request (with the JSON command body) and send it through the guarded
send, while `known_clients` and `online_clients` each send their GET
request through the guarded send and then issue one additional direct GET
to the same URL outside that protocol — the trace of a 401-free run shows
exactly these requests and no others. -/
theorem C3_amended_one_extra_get (r : UnifiDreamRouter) (netrc : List Machine)
    (c : Client) (csrf : Option String) (sent : List Request)
    (r1 r2 : Response) (rest : List Response)
    (h1 : isErrorStatus r1.status = false) :
    ((r.known_clients netrc ⟨r1 :: r2 :: rest, csrf, sent⟩).1.sent
      = sent ++ [(add_csrf_header csrf ⟨Method.get, r.known_devices_url, [], none⟩).2,
          ⟨Method.get, r.known_devices_url, [], none⟩]) ∧
    ((r.online_clients netrc ⟨r1 :: r2 :: rest, csrf, sent⟩).1.sent
      = sent ++ [(add_csrf_header csrf ⟨Method.get, r.connected_devices_url, [], none⟩).2,
          ⟨Method.get, r.connected_devices_url, [], none⟩]) ∧
    ((r.block_client netrc c ⟨r1 :: rest, csrf, sent⟩).1.sent
      = sent ++ [(add_csrf_header csrf ⟨Method.post, r.site_url ++ "/cmd/stamgr", [],
          some (encodeBlockCommand (BlockCommand.new c.mac))⟩).2]) ∧
    ((r.unblock_client netrc c ⟨r1 :: rest, csrf, sent⟩).1.sent
      = sent ++ [(add_csrf_header csrf ⟨Method.post, r.site_url ++ "/cmd/stamgr", [],
          some (encodeUnblockCommand (UnblockCommand.new c.mac))⟩).2]) := by
  refine ⟨?_, ?_, ?_, ?_⟩
  · have hk := send_ok_of_success r netrc
      ⟨Method.get, r.known_devices_url, [], none⟩ csrf sent r1 (r2 :: rest) h1
    unfold UnifiDreamRouter.known_clients
    dsimp only
    rw [hk]
    by_cases he2 : isErrorStatus r2.status
    · simp [httpSend, he2]
    · cases hd : decodeRouterResponse r2.body <;> simp [httpSend, he2, hd]
  · have hk := send_ok_of_success r netrc
      ⟨Method.get, r.connected_devices_url, [], none⟩ csrf sent r1 (r2 :: rest) h1
    unfold UnifiDreamRouter.online_clients
    dsimp only
    rw [hk]
    by_cases he2 : isErrorStatus r2.status
    · simp [httpSend, he2]
    · cases hd : decodeRouterResponse r2.body <;> simp [httpSend, he2, hd]
  · have hb := send_ok_of_success r netrc
      ⟨Method.post, r.site_url ++ "/cmd/stamgr", [],
        some (encodeBlockCommand (BlockCommand.new c.mac))⟩ csrf sent r1 rest h1
    unfold UnifiDreamRouter.block_client
    dsimp only
    rw [hb]
  · have hb := send_ok_of_success r netrc
      ⟨Method.post, r.site_url ++ "/cmd/stamgr", [],
        some (encodeUnblockCommand (UnblockCommand.new c.mac))⟩ csrf sent r1 rest h1
    unfold UnifiDreamRouter.unblock_client
    dsimp only
    rw [hb]

/-- Witness for the amended C3 at a concrete 401-free run. -/
theorem C3_amended_witness :
    ((UnifiDreamRouter.new "h").known_clients []
        ⟨[⟨200, [], Json.null⟩, ⟨200, [], Json.obj [("data", Json.arr [])]⟩],
          none, []⟩).1.sent
      = [⟨Method.get, (UnifiDreamRouter.new "h").known_devices_url, [], none⟩,
         ⟨Method.get, (UnifiDreamRouter.new "h").known_devices_url, [], none⟩] := by
  have h := C3_amended_one_extra_get (UnifiDreamRouter.new "h") [] ⟨"n", "m"⟩ none []
    ⟨200, [], Json.null⟩ ⟨200, [], Json.obj [("data", Json.arr [])]⟩ [] (by decide)
  simpa [add_csrf_header] using h.1

/-- C7 as stated is false on the code: the credential lookup for host `"h"`
provides username `"alice"`, but the login flow POSTs the hardcoded
username `"peter@peca.dk"` together with the looked-up password — the pair
sent is not the pair the lookup returned. -/
theorem C7_counterexample :
    ((((UnifiDreamRouter.new "h").login [⟨some "h", some "alice", some "pw"⟩]
        ⟨[⟨200, [], Json.null⟩], none, []⟩).1).sent
      = [⟨Method.post, "https://h/api/auth/login", [],
          some (encodeLogin "peter@peca.dk" "pw")⟩]) ∧
    ((([⟨some "h", some "alice", some "pw"⟩] : List Machine).find?
        (fun m => m.name == some "h")).bind Machine.login = some "alice") ∧
    "peter@peca.dk" ≠ "alice" :=
  ⟨rfl, rfl, by decide⟩

/-- C7 (amended): the login flow obtains the PASSWORD for the configured
host from the `.netrc` lookup and POSTs it with the hardcoded username
`"peter@peca.dk"` as the JSON login body; when the lookup fails, login
fails with a configuration error and the state is unchanged — no login
HTTP request is sent. -/
theorem C7_amended_password_lookup (r : UnifiDreamRouter) (netrc : List Machine)
    (pw : String) (csrf : Option String) (sent : List Request)
    (r1 : Response) (rest : List Response)
    (hpw : get_password netrc r.hostname = .ok pw) :
    ((r.login netrc ⟨r1 :: rest, csrf, sent⟩).1.sent
      = sent ++ [⟨Method.post, r.login_url, [],
          some (encodeLogin "peter@peca.dk" pw)⟩]) ∧
    (∀ (netrc2 : List Machine) (msg : String) (s : NetState),
      get_password netrc2 r.hostname = .error msg →
      r.login netrc2 s = (s, .error (.credentials msg))) := by
  constructor
  · by_cases he : isErrorStatus r1.status <;>
      simp [UnifiDreamRouter.login, httpSend, hpw, he]
  · intro netrc2 msg s hmsg
    simp [UnifiDreamRouter.login, hmsg]

/-- Witness for the amended C7 at a concrete `.netrc`. -/
theorem C7_amended_witness :
    ((UnifiDreamRouter.new "h").login [⟨some "h", none, some "pw"⟩]
        ⟨[⟨200, [], Json.null⟩], none, []⟩).1.sent
      = [⟨Method.post, (UnifiDreamRouter.new "h").login_url, [],
          some (encodeLogin "peter@peca.dk" "pw")⟩] := by
  have h := C7_amended_password_lookup (UnifiDreamRouter.new "h")
    [⟨some "h", none, some "pw"⟩] "pw" none [] ⟨200, [], Json.null⟩ [] rfl
  simpa using h.1
